import Mathlib

/-!
# Equation discovery: a shallow embedding of `equation_discovery.{h,cpp}`

The C++ classes `DataSet`, `Equation`, `SymbolicRegression` and `SINDy` are
embedded as Lean structures and functions.

Conventions of the embedding:

* `std::vector<T>` is `List T`, `std::string` is `String`, `size_t` is `Nat`
  (no arithmetic on `size_t` in the sources can wrap: loop counters only count
  up to a bound that is itself a `size_t`).  Storage is unbounded: `push_back`
  never fails for lack of memory.  The argument check of
  `std::vector::reserve` against `max_size()` does not depend on memory and is
  modelled; `max_size()` is a constant of the implementation and is taken as a
  parameter `max_size`.
* `double` is `Double`: the three fields of an IEEE-754 binary64 pattern, with
  correctly rounded (round-to-nearest, ties-to-even) addition and
  multiplication.
* Every function defined in `equation_discovery.cpp` returns in
  `Except Exception`: `throw std::invalid_argument(msg)` is
  `throw (Exception.invalid_argument msg)`, a normal return is `pure`.
  The implicitly declared copy and move operations of `Equation` are embedded
  as `Equation.assign` and `Equation.movedFrom`.
  The inline accessors of the header are plain functions.
* The parts of the C++ standard library that `SymbolicRegression::discover`
  calls (`std::random_device`, `std::mt19937`,
  `std::uniform_real_distribution<>`, `operator<<` for `double`) are not part
  of the repository; they are taken as a parameter `StdLib`.
-/

/-! ## `double` -/

/-- IEEE-754 binary64 value, held as the sign bit, the 11-bit biased exponent
field and the 52-bit fraction field of its bit pattern. -/
structure Double where
  sign : Bool
  expo : Nat
  frac : Nat
deriving DecidableEq, Repr

/-- Integer significand of a pattern: `frac` for zero and subnormals,
`2^52 + frac` for normal numbers. -/
def Double.mant (d : Double) : Nat :=
  if d.expo = 0 then d.frac else 2 ^ 52 + d.frac

/-- Binary exponent of the integer significand: the value of a finite pattern
is `(-1)^sign * mant * 2^exp2`. -/
def Double.exp2 (d : Double) : Int :=
  (if d.expo = 0 then 1 else (d.expo : Int)) - 1075

/-- Test `std::isnan`. -/
def Double.isNaN (d : Double) : Bool :=
  d.expo == 2047 && d.frac != 0

/-- Test `std::isinf`. -/
def Double.isInf (d : Double) : Bool :=
  d.expo == 2047 && d.frac == 0

/-- Test `std::isfinite`. -/
def Double.isFinite (d : Double) : Bool :=
  decide (d.expo < 2047)

/-- A quiet NaN. -/
def Double.nan : Double := ⟨false, 2047, 2 ^ 51⟩

/-- Signed infinity. -/
def Double.inf (neg : Bool) : Double := ⟨neg, 2047, 0⟩

/-- Signed zero. -/
def Double.zero (neg : Bool) : Double := ⟨neg, 0, 0⟩

/-- Exact value of a finite pattern as a rational number. -/
def Double.toRat (d : Double) : ℚ :=
  (if d.sign then -1 else 1) * (d.mant : ℚ) * (2 : ℚ) ^ d.exp2

/-- Value of a non-NaN pattern scaled by `2^1074`, an integer.  An infinity is
mapped to `± 2^2098`, beyond every finite value. -/
def Double.scaled (d : Double) : Int :=
  let m : Int := ((d.mant * 2 ^ ((if d.expo = 0 then 1 else d.expo) - 1) : Nat) : Int)
  if d.sign then -m else m

/-- Comparison `a <= b` of C++ on `double`: false when an operand is NaN. -/
def Double.le (a b : Double) : Bool :=
  !a.isNaN && !b.isNaN && decide (a.scaled ≤ b.scaled)

/-- Comparison `a >= b` of C++ on `double`. -/
def Double.ge (a b : Double) : Bool :=
  Double.le b a

/-- Comparison `a == b` of C++ on `double`: false when an operand is NaN, and
the two zeros are equal. -/
def Double.eq (a b : Double) : Bool :=
  !a.isNaN && !b.isNaN && decide (a.scaled = b.scaled)

/-- Number of binary digits of `m`, by repeated halving; `fuel` bounds the
number of halvings. -/
def Double.bitLengthAux : Nat → Nat → Nat
  | 0, _ => 0
  | fuel + 1, m => if m = 0 then 0 else Double.bitLengthAux fuel (m / 2) + 1

/-- Number of binary digits of `m`: `0` for `0`, else `⌊log₂ m⌋ + 1`. -/
def Double.bitLength (m : Nat) : Nat :=
  Double.bitLengthAux m m

/-- Round the real number `(-1)^neg * m * 2^e` to binary64, to nearest with
ties to even; overflow gives an infinity. -/
def Double.round (neg : Bool) (m : Nat) (e : Int) : Double :=
  if m = 0 then Double.zero neg
  else
    -- exponent of the result significand: 53 bits, but not below the
    -- subnormal exponent
    let e1 : Int := max (e + (Double.bitLength m : Int) - 53) (-1074)
    -- significand at exponent `e1`
    let m1 : Nat :=
      if e1 ≤ e then m * 2 ^ (e - e1).toNat
      else
        let s := (e1 - e).toNat
        let q := m / 2 ^ s
        let r := m % 2 ^ s
        let half := 2 ^ (s - 1)
        if r > half ∨ (r = half ∧ q % 2 = 1) then q + 1 else q
    -- a carry out of the rounding gives 2^53
    let e2 : Int := if m1 = 2 ^ 53 then e1 + 1 else e1
    let m2 : Nat := if m1 = 2 ^ 53 then 2 ^ 52 else m1
    if m2 < 2 ^ 52 then ⟨neg, 0, m2⟩
    else
      let be := (e2 + 1075).toNat
      if be ≥ 2047 then Double.inf neg else ⟨neg, be, m2 - 2 ^ 52⟩

/-- Conversion of a `size_t` to `double`. -/
def Double.ofNat (n : Nat) : Double :=
  Double.round false n 0

/-- Addition of C++ on `double`. -/
def Double.add (a b : Double) : Double :=
  if a.isNaN || b.isNaN then Double.nan
  else if a.isInf then
    (if b.isInf && (a.sign != b.sign) then Double.nan else a)
  else if b.isInf then b
  else
    let x : Int := a.scaled + b.scaled
    if x = 0 then Double.zero (a.sign && b.sign)
    else Double.round (decide (x < 0)) x.natAbs (-1074)

/-- Multiplication of C++ on `double`. -/
def Double.mul (a b : Double) : Double :=
  if a.isNaN || b.isNaN then Double.nan
  else if a.isInf || b.isInf then
    (if a.mant = 0 || b.mant = 0 then Double.nan else Double.inf (a.sign != b.sign))
  else Double.round (a.sign != b.sign) (a.mant * b.mant) (a.exp2 + b.exp2)

/-- Literal `0.0`. -/
def Double.lit_0_0 : Double := ⟨false, 0, 0⟩

/-- Literal `1.0`. -/
def Double.lit_1_0 : Double := ⟨false, 1023, 0⟩

/-- Literal `0.95`, pattern `0x3FEE666666666666`. -/
def Double.lit_0_95 : Double := ⟨false, 1022, 0xE666666666666⟩

/-- Literal `0.92`, pattern `0x3FED70A3D70A3D71`. -/
def Double.lit_0_92 : Double := ⟨false, 1022, 0xD70A3D70A3D71⟩

/-- Literal `0.90`, pattern `0x3FECCCCCCCCCCCCD`. -/
def Double.lit_0_90 : Double := ⟨false, 1022, 0xCCCCCCCCCCCCD⟩

/-- Literal `0.1`, pattern `0x3FB999999999999A`. -/
def Double.lit_0_1 : Double := ⟨false, 1019, 0x999999999999A⟩

/-- Literal `0.01`, pattern `0x3F847AE147AE147B`. -/
def Double.lit_0_01 : Double := ⟨false, 1016, 0x47AE147AE147B⟩


/-! ## Exceptions -/

/-- Exceptions thrown by the library: `std::invalid_argument`, thrown by the
`DataSet` constructor, and `std::length_error`, thrown by
`std::vector::reserve`, each with its message. -/
inductive Exception where
  | invalid_argument (what : String)
  | length_error (what : String)
deriving DecidableEq, Repr

/-- Call `equations.reserve(n)` on a `std::vector<Equation>`: it throws
`std::length_error` when `n > max_size()` and otherwise changes no element.
`max_size` is the value of `std::vector<Equation>::max_size()`; the message is
the one of libstdc++. -/
def vector.reserve (max_size n : Nat) : Except Exception Unit :=
  if n > max_size then throw (Exception.length_error "vector::reserve") else pure ()

set_option linter.dupNamespace false

/-! ## `DataSet`

Within each class the constructor is declared after the other members. -/

/-- Class `DataSet`: the private member `data_`. -/
structure DataSet where
  data_ : List (List Double)
deriving DecidableEq, Repr

/-- Accessor `rows()`. -/
def DataSet.rows (self : DataSet) : Nat :=
  self.data_.length

/-- Accessor `cols()`. -/
def DataSet.cols (self : DataSet) : Nat :=
  match self.data_ with
  | [] => 0
  | row0 :: _ => row0.length

/-- Accessor `operator[](i)`: the row `data_[i]`; `none` stands for the
out-of-range access, which C++ leaves undefined. -/
def DataSet.index (self : DataSet) (i : Nat) : Option (List Double) :=
  self.data_[i]?

/-- The loop `for (const auto& row : data_)` of the constructor: the first row
whose size differs from `cols` throws. -/
def DataSet.checkRows (cols : Nat) : List (List Double) → Except Exception Unit
  | [] => pure ()
  | row :: rest =>
    if row.length ≠ cols then
      throw (Exception.invalid_argument "All rows must have the same number of columns")
    else DataSet.checkRows cols rest

/-- Constructor `DataSet::DataSet(data)`. -/
def DataSet.DataSet (data : List (List Double)) : Except Exception DataSet :=
  match data with
  | [] => throw (Exception.invalid_argument "DataSet cannot be empty")
  | row0 :: _ => do
    let cols := row0.length
    DataSet.checkRows cols data
    pure ⟨data⟩

/-! ## `Equation` -/

/-- Class `Equation`: the private members `expression_` and `fitness_`. -/
structure Equation where
  expression_ : String
  fitness_ : Double
deriving DecidableEq, Repr

/-- Accessor `toString()`. -/
def Equation.toString (self : Equation) : String :=
  self.expression_

/-- Member `evaluate(inputs)`: the body is `return 0.0;`. -/
def Equation.evaluate (_self : Equation) (_inputs : List Double) : Except Exception Double :=
  pure Double.lit_0_0

/-- Accessor `fitness()`. -/
def Equation.fitness (self : Equation) : Double :=
  self.fitness_

/-- Member `setFitness(f)`. -/
def Equation.setFitness (self : Equation) (f : Double) : Equation :=
  { self with fitness_ := f }

/-- The implicitly declared copy assignment `operator=(const Equation&)` and
move assignment `operator=(Equation&&)`, seen from the object assigned to:
both members are overwritten with those of `other`. -/
def Equation.assign (_self other : Equation) : Equation :=
  ⟨other.expression_, other.fitness_⟩

/-- The object after it has been the source of a move construction or of a move
assignment: the `std::string` member is left in a valid but unspecified state
`residue`, the `double` member is copied and keeps its value. -/
def Equation.movedFrom (self : Equation) (residue : String) : Equation :=
  ⟨residue, self.fitness_⟩

/-- Constructor `Equation::Equation(expression)`: `fitness_` starts at `0.0`. -/
def Equation.Equation (expression : String) : Except Exception Equation :=
  pure ⟨expression, Double.lit_0_0⟩

/-! ## The standard library used by `SymbolicRegression::discover` -/

/-- The standard-library facilities that `SymbolicRegression::discover` calls,
none of which is part of the repository.  `Device` is the state of the entropy
source behind `std::random_device`, `Engine` the state of a `std::mt19937`. -/
structure StdLib (Device Engine : Type) where
  /-- Call `rd()` of a `std::random_device`: a seed and the advanced source. -/
  rd : Device → Nat × Device
  /-- Construction `std::mt19937 gen(seed)`. -/
  mt19937 : Nat → Engine
  /-- Call `dis(gen)` of `std::uniform_real_distribution<> dis(-10.0, 10.0)`. -/
  dis : Engine → Double × Engine
  /-- Text appended by `ss << d` for a `double` on a fresh `std::stringstream`. -/
  put : Double → String

/-! ## `SymbolicRegression` -/

/-- Class `SymbolicRegression`: the private members `population_size_` and
`generations_`. -/
structure SymbolicRegression where
  population_size_ : Nat
  generations_ : Nat
deriving DecidableEq, Repr

/-- Member `SymbolicRegression::discover(data)`.  The entropy source is threaded
through the call; the two draws are taken in the order in which they are
written to the stream. -/
def SymbolicRegression.discover {Device Engine : Type} (L : StdLib Device Engine)
    (_self : SymbolicRegression) (_data : DataSet) (dev : Device) :
    Except Exception (Equation × Device) := do
  let (seed, dev) := L.rd dev
  let gen := L.mt19937 seed
  let (a, gen) := L.dis gen
  let (b, _) := L.dis gen
  let ss := L.put a ++ " * x + " ++ L.put b
  let eq ← Equation.Equation ss
  let eq := eq.setFitness Double.lit_0_95
  pure (eq, dev)

/-- The loop `for (size_t i = 0; i < n; ++i) equations.push_back(discover(data))`,
with `k = n - i` iterations left. -/
def SymbolicRegression.discoverMultiple.loop {Device Engine : Type} (L : StdLib Device Engine)
    (self : SymbolicRegression) (data : DataSet) :
    Nat → List Equation → Device → Except Exception (List Equation × Device)
  | 0, equations, dev => pure (equations, dev)
  | k + 1, equations, dev => do
    let (eq, dev) ← self.discover L data dev
    SymbolicRegression.discoverMultiple.loop L self data k (equations ++ [eq]) dev

/-- Member `SymbolicRegression::discoverMultiple(data, n)`: `equations.reserve(n)`,
then the loop. -/
def SymbolicRegression.discoverMultiple {Device Engine : Type} (L : StdLib Device Engine)
    (max_size : Nat) (self : SymbolicRegression) (data : DataSet) (n : Nat) (dev : Device) :
    Except Exception (List Equation × Device) := do
  vector.reserve max_size n
  SymbolicRegression.discoverMultiple.loop L self data n [] dev

/-- Constructor `SymbolicRegression::SymbolicRegression(population_size, generations)`;
the header gives the defaults `1000` and `100`.  The body is empty. -/
def SymbolicRegression.SymbolicRegression (population_size generations : Nat) :
    Except Exception SymbolicRegression :=
  pure ⟨population_size, generations⟩

/-! ## `SINDy` -/

/-- Class `SINDy`: the private members `threshold_` and `max_iter_`. -/
structure SINDy where
  threshold_ : Double
  max_iter_ : Nat
deriving DecidableEq, Repr

/-- Member `SINDy::discover(data)`. -/
def SINDy.discover (_self : SINDy) (_data : DataSet) : Except Exception Equation := do
  let ss := "dx/dt = -10.0 * x + 10.0 * y"
  let eq ← Equation.Equation ss
  let eq := eq.setFitness Double.lit_0_92
  pure eq

/-- The local `components` of `SINDy::discoverMultiple`. -/
def SINDy.discoverMultiple.components : List String :=
  ["dx/dt = -10.0 * x + 10.0 * y",
   "dy/dt = 28.0 * x - y - x * z",
   "dz/dt = -8.0/3.0 * z + x * y"]

/-- The loop `for (size_t i = 0; i < std::min(n, components.size()); ++i)` of
`SINDy::discoverMultiple`, entered at index `i` with `k` iterations left.  The
index `components[i]` is in range in every iteration the loop runs; the
embedding reads it with a default. -/
def SINDy.discoverMultiple.loop (components : List String) :
    Nat → Nat → List Equation → Except Exception (List Equation)
  | 0, _, equations => pure equations
  | k + 1, i, equations => do
    let eq ← Equation.Equation (components.getD i "")
    let eq := eq.setFitness (Double.add Double.lit_0_90 (Double.mul (Double.ofNat i) Double.lit_0_01))
    SINDy.discoverMultiple.loop components k (i + 1) (equations ++ [eq])

/-- Member `SINDy::discoverMultiple(data, n)`: `equations.reserve(n)`, then the
loop over the components. -/
def SINDy.discoverMultiple (max_size : Nat) (_self : SINDy) (_data : DataSet) (n : Nat) :
    Except Exception (List Equation) := do
  vector.reserve max_size n
  let components := SINDy.discoverMultiple.components
  SINDy.discoverMultiple.loop components (min n components.length) 0 []

/-- Constructor `SINDy::SINDy(threshold, max_iter)`; the header gives the defaults
`0.1` and `10`.  The body is empty. -/
def SINDy.SINDy (threshold : Double) (max_iter : Nat) : Except Exception SINDy :=
  pure ⟨threshold, max_iter⟩

/-! ## The public interface of `Equation` as operations on an object -/

/-- One use of the public interface of `Equation` on an existing object: the
four member functions declared in the class, and the implicitly declared copy
and move operations (the class declares none of them, so all are public).
`copyAssign other` is `*this = other`, `moveAssign other` is
`*this = std::move(other)`; `copyFrom` and `moveFrom` take the object as the
source of a copy or of a move (construction or assignment of another object).
The destructor ends the lifetime of the object, after which `fitness()` cannot
be called; it is not listed. -/
inductive EquationOp where
  | toString
  | evaluate (inputs : List Double)
  | fitness
  | setFitness (f : Double)
  | copyAssign (other : Equation)
  | moveAssign (other : Equation)
  | copyFrom
  | moveFrom (residue : String)
deriving DecidableEq, Repr

/-- Value returned by a use of the interface. -/
inductive EquationValue where
  | void
  | string (s : String)
  | number (d : Double)
deriving DecidableEq, Repr

/-- One use of the interface on `self`: the value returned and the object
afterwards.  `toString`, `evaluate` and `fitness` are declared `const` and a
copy reads its source through `const Equation&`, so the object is as before;
the other operations give the object computed by the embedded member. -/
def EquationOp.run (op : EquationOp) (self : Equation) :
    Except Exception (EquationValue × Equation) :=
  match op with
  | .toString => pure (.string self.toString, self)
  | .evaluate inputs => do
    let v ← self.evaluate inputs
    pure (.number v, self)
  | .fitness => pure (.number self.fitness, self)
  | .setFitness f => pure (.void, self.setFitness f)
  | .copyAssign other => pure (.void, self.assign other)
  | .moveAssign other => pure (.void, self.assign other)
  | .copyFrom => pure (.void, self)
  | .moveFrom residue => pure (.void, self.movedFrom residue)

/-! ## Concrete inputs -/

/-- A small deterministic instance of `StdLib`, used to run
`SymbolicRegression` on concrete inputs: the entropy source counts up, the
engine state is its seed, the draws alternate between `1.0` and `0.0`. -/
def StdLib.counting : StdLib Nat Nat where
  rd dev := (dev % 2 ^ 32, dev + 1)
  mt19937 seed := seed
  dis gen := (if gen % 2 = 0 then Double.lit_1_0 else Double.lit_0_0, gen + 1)
  put d := if d = Double.lit_1_0 then "1" else "0"

/-- The value of `std::vector<Equation>::max_size()` with libstdc++ on a 64-bit
target, where an `Equation` takes 40 bytes: `PTRDIFF_MAX / 40`. -/
def Example.max_size : Nat :=
  (2 ^ 63 - 1) / 40

/-- The largest `size_t` of a 64-bit target, `SIZE_MAX`. -/
def Example.size_max : Nat :=
  2 ^ 64 - 1

/-- The rows `{{1.0, 2.0}, {3.0, 4.0}, {5.0, 6.0}}` of `test_dataset_creation`. -/
def Example.rows3x2 : List (List Double) :=
  [[Double.ofNat 1, Double.ofNat 2], [Double.ofNat 3, Double.ofNat 4],
   [Double.ofNat 5, Double.ofNat 6]]

/-- The first two rows `{0.0, 1.0}, {1.0, 3.0}` of the data of
`basic_discovery.cpp`: two columns. -/
def Example.rows2x2 : List (List Double) :=
  [[Double.ofNat 0, Double.ofNat 1], [Double.ofNat 1, Double.ofNat 3]]

/-- The single row `{1.0}`: one column. -/
def Example.rows1x1 : List (List Double) :=
  [[Double.lit_1_0]]

/-- Two rows `{1.0, 1.0}, {0.0, 0.0}` whose last column equals the first. -/
def Example.rowsDiag : List (List Double) :=
  [[Double.lit_1_0, Double.lit_1_0], [Double.lit_0_0, Double.lit_0_0]]

/-! ## Sanity of the `double` literals -/

/-- The pattern of `0.95` is within half a unit in the last place of 95/100. -/
theorem Double.lit_0_95_nearest : |Double.lit_0_95.toRat - 95 / 100| ≤ 1 / 2 ^ 54 := by
  norm_num [Double.toRat, Double.lit_0_95, Double.mant, Double.exp2, abs_le]

/-- The pattern of `0.92` is within half a unit in the last place of 92/100. -/
theorem Double.lit_0_92_nearest : |Double.lit_0_92.toRat - 92 / 100| ≤ 1 / 2 ^ 54 := by
  norm_num [Double.toRat, Double.lit_0_92, Double.mant, Double.exp2, abs_le]

/-- The pattern of `0.90` is within half a unit in the last place of 90/100. -/
theorem Double.lit_0_90_nearest : |Double.lit_0_90.toRat - 90 / 100| ≤ 1 / 2 ^ 54 := by
  norm_num [Double.toRat, Double.lit_0_90, Double.mant, Double.exp2, abs_le]

/-- The pattern of `0.1` is within half a unit in the last place of 1/10. -/
theorem Double.lit_0_1_nearest : |Double.lit_0_1.toRat - 1 / 10| ≤ 1 / 2 ^ 57 := by
  norm_num [Double.toRat, Double.lit_0_1, Double.mant, Double.exp2, abs_le]

/-- The pattern of `0.01` is within half a unit in the last place of 1/100. -/
theorem Double.lit_0_01_nearest : |Double.lit_0_01.toRat - 1 / 100| ≤ 1 / 2 ^ 60 := by
  norm_num [Double.toRat, Double.lit_0_01, Double.mant, Double.exp2, abs_le]

/-- The patterns of `0.0` and `1.0` have the values 0 and 1. -/
theorem Double.lit_0_0_lit_1_0_value : Double.lit_0_0.toRat = 0 ∧ Double.lit_1_0.toRat = 1 := by
  norm_num [Double.toRat, Double.lit_0_0, Double.lit_1_0, Double.mant, Double.exp2]

/-- The comparisons `0.95 >= 0.0` and `0.95 <= 1.0` hold. -/
theorem Double.lit_0_95_range :
    Double.ge Double.lit_0_95 Double.lit_0_0 = true ∧
    Double.le Double.lit_0_95 Double.lit_1_0 = true := by
  decide!

/-- The pattern of `0.92` is not that of `1.0`, and `0.92 == 1.0` is false. -/
theorem Double.lit_0_92_ne_one :
    Double.lit_0_92 ≠ Double.lit_1_0 ∧ Double.eq Double.lit_0_92 Double.lit_1_0 = false := by
  decide!

/-! ## `std::vector::reserve` -/

/-- A request within `max_size()` returns. -/
theorem vector.reserve_ok (max_size n : Nat) (h : n ≤ max_size) :
    vector.reserve max_size n = .ok () := by
  simp [vector.reserve, Nat.not_lt.2 h, pure, Except.pure]

/-- A request beyond `max_size()` throws `std::length_error`. -/
theorem vector.reserve_throws (max_size n : Nat) (h : max_size < n) :
    vector.reserve max_size n = .error (Exception.length_error "vector::reserve") := by
  simp [vector.reserve, h, throw, throwThe, MonadExceptOf.throw]

/-! ## `DataSet` construction -/

/-- The row loop succeeds exactly when every row has `cols` entries. -/
theorem DataSet.checkRows_ok_iff (cols : Nat) (rows : List (List Double)) :
    DataSet.checkRows cols rows = .ok () ↔ ∀ row ∈ rows, row.length = cols := by
  induction rows with
  | nil => simp [DataSet.checkRows, pure, Except.pure]
  | cons row rest ih =>
    by_cases h : row.length = cols
    · simp [DataSet.checkRows, h, ih]
    · simp [DataSet.checkRows, h, throw, throwThe, MonadExceptOf.throw]

/-- The row loop either succeeds or throws its one message. -/
theorem DataSet.checkRows_cases (cols : Nat) (rows : List (List Double)) :
    DataSet.checkRows cols rows = .ok () ∨
    DataSet.checkRows cols rows
      = .error (Exception.invalid_argument "All rows must have the same number of columns") := by
  induction rows with
  | nil => left; rfl
  | cons row rest ih =>
    by_cases h : row.length = cols
    · simpa [DataSet.checkRows, h] using ih
    · right; simp [DataSet.checkRows, h, throw, throwThe, MonadExceptOf.throw]

/-- The constructor applied to a non-empty list runs the row loop against the
length of the first row. -/
theorem DataSet.DataSet_cons (row0 : List Double) (rest : List (List Double)) :
    DataSet.DataSet (row0 :: rest)
      = (DataSet.checkRows row0.length (row0 :: rest)).bind (fun _ => .ok ⟨row0 :: rest⟩) := by
  rfl

/-- Claim C1: for every non-empty input whose rows all have the length of the
first row, the `DataSet` constructor succeeds, `rows()` is the number of input
rows, `cols()` is the length of the first input row, and `ds[i]` is the `i`-th
input row for every `i < rows()`. -/
theorem dataset_construction_rectangular (data : List (List Double))
    (hne : data ≠ [])
    (hrect : ∀ row ∈ data, row.length = (data.headD []).length) :
    ∃ ds : DataSet, DataSet.DataSet data = .ok ds ∧
      ds.rows = data.length ∧
      ds.cols = (data.headD []).length ∧
      ∀ (i : Nat) (hi : i < data.length), i < ds.rows ∧ ds.index i = some data[i] := by
  cases data with
  | nil => exact absurd rfl hne
  | cons row0 rest =>
    have hloop : DataSet.checkRows row0.length (row0 :: rest) = .ok () :=
      (DataSet.checkRows_ok_iff _ _).2 (by simpa using hrect)
    refine ⟨⟨row0 :: rest⟩, ?_, rfl, rfl, ?_⟩
    · rw [DataSet.DataSet_cons, hloop]; rfl
    · intro i hi
      refine ⟨hi, ?_⟩
      simp [DataSet.index, List.getElem?_eq_getElem hi]

/-- Witness of C1 on the rows of `test_dataset_creation`. -/
theorem dataset_construction_rectangular_witness :
    Example.rows3x2 ≠ [] ∧
    (∀ row ∈ Example.rows3x2, row.length = (Example.rows3x2.headD []).length) ∧
    ∃ ds : DataSet, DataSet.DataSet Example.rows3x2 = .ok ds ∧
      ds.rows = Example.rows3x2.length ∧
      ds.cols = (Example.rows3x2.headD []).length ∧
      ∀ (i : Nat) (hi : i < Example.rows3x2.length),
        i < ds.rows ∧ ds.index i = some Example.rows3x2[i] :=
  ⟨by simp [Example.rows3x2], by simp [Example.rows3x2],
   dataset_construction_rectangular Example.rows3x2 (by simp [Example.rows3x2])
     (by simp [Example.rows3x2])⟩

/-- Claim C2: the `DataSet` constructor throws `std::invalid_argument` exactly
when the input has no rows or has a row whose length differs from that of the
first row; the empty input is rejected, and a call that throws yields no
`DataSet`. -/
theorem dataset_construction_fails_iff (data : List (List Double)) :
    ((∃ msg, DataSet.DataSet data = .error (Exception.invalid_argument msg)) ↔
      (data = [] ∨ ∃ row ∈ data, row.length ≠ (data.headD []).length)) ∧
    DataSet.DataSet [] = .error (Exception.invalid_argument "DataSet cannot be empty") ∧
    ((∃ msg, DataSet.DataSet data = .error (Exception.invalid_argument msg)) →
      ∀ ds : DataSet, DataSet.DataSet data ≠ .ok ds) := by
  refine ⟨?_, rfl, ?_⟩
  · cases data with
    | nil => exact ⟨fun _ => Or.inl rfl, fun _ => ⟨_, rfl⟩⟩
    | cons row0 rest =>
      rw [DataSet.DataSet_cons]
      have hiff := DataSet.checkRows_ok_iff row0.length (row0 :: rest)
      constructor
      · rintro ⟨msg, hmsg⟩
        right
        by_contra hall
        have hloop : DataSet.checkRows row0.length (row0 :: rest) = .ok () := by
          apply hiff.2
          intro row hrow
          by_contra hlen
          exact hall ⟨row, hrow, by simpa using hlen⟩
        rw [hloop] at hmsg
        cases hmsg
      · rintro (h | ⟨row, hrow, hlen⟩)
        · cases h
        · rcases DataSet.checkRows_cases row0.length (row0 :: rest) with hok | herr
          · exact absurd (hiff.1 hok row hrow) (by simpa using hlen)
          · rw [herr]; exact ⟨_, rfl⟩
  · rintro ⟨msg, hmsg⟩ ds hds
    rw [hmsg] at hds
    cases hds

/-! ## `SymbolicRegression` -/

/-- Closed form of `SymbolicRegression::discover`: it always returns, with the
text `a * x + b` of two draws and the fitness `0.95`. -/
theorem symbolic_discover_eq {Device Engine : Type} (L : StdLib Device Engine)
    (self : SymbolicRegression) (data : DataSet) (dev : Device) :
    self.discover L data dev
      = .ok (⟨L.put (L.dis (L.mt19937 (L.rd dev).1)).1 ++ " * x + "
                ++ L.put (L.dis (L.dis (L.mt19937 (L.rd dev).1)).2).1, Double.lit_0_95⟩,
             (L.rd dev).2) := by
  rfl

/-- A text that contains the literal `" * x + "` between two pieces is not
empty. -/
theorem append_mid_ne_empty (s t : String) : s ++ " * x + " ++ t ≠ "" := by
  intro h
  have hlen := congrArg String.length h
  simp only [String.length_append] at hlen
  have h7 : " * x + ".length = 7 := by decide
  have h0 : "".length = 0 := by decide
  omega

/-- The loop of `SymbolicRegression::discoverMultiple` with `k` iterations left
returns, having appended exactly `k` equations. -/
theorem symbolic_loop_length {Device Engine : Type}
    (L : StdLib Device Engine) (self : SymbolicRegression) (data : DataSet)
    (k : Nat) (equations : List Equation) (dev : Device) :
    ∃ (eqs : List Equation) (dev1 : Device),
      SymbolicRegression.discoverMultiple.loop L self data k equations dev = .ok (eqs, dev1) ∧
      eqs.length = equations.length + k := by
  induction k generalizing equations dev with
  | zero => exact ⟨equations, dev, rfl, rfl⟩
  | succ k ih =>
    obtain ⟨eqs, dev1, hrun, hlen⟩ :=
      ih (equations ++ [(⟨L.put (L.dis (L.mt19937 (L.rd dev).1)).1 ++ " * x + "
            ++ L.put (L.dis (L.dis (L.mt19937 (L.rd dev).1)).2).1, Double.lit_0_95⟩ : Equation)])
        (L.rd dev).2
    refine ⟨eqs, dev1, ?_, ?_⟩
    · rw [← hrun]
      simp only [SymbolicRegression.discoverMultiple.loop, symbolic_discover_eq]
      rfl
    · simp only [List.length_append, List.length_singleton] at hlen
      omega

/-- Claim C3, as the code has it: for every `DataSet`, every configuration,
every state of the random source and every `n` up to `max_size()`, zero
included, `SymbolicRegression::discoverMultiple(data, n)` returns, and the
sequence it returns has exactly `n` equations; for `n` beyond `max_size()` the
call `equations.reserve(n)` throws `std::length_error` and nothing is
returned. -/
theorem symbolic_discoverMultiple_length {Device Engine : Type} (L : StdLib Device Engine)
    (max_size : Nat) (self : SymbolicRegression) (data : DataSet) (n : Nat) (dev : Device) :
    (n ≤ max_size →
      ∃ (eqs : List Equation) (dev1 : Device),
        self.discoverMultiple L max_size data n dev = .ok (eqs, dev1) ∧ eqs.length = n) ∧
    (max_size < n →
      self.discoverMultiple L max_size data n dev
        = .error (Exception.length_error "vector::reserve")) := by
  constructor
  · intro hn
    obtain ⟨eqs, dev1, hrun, hlen⟩ := symbolic_loop_length L self data n [] dev
    refine ⟨eqs, dev1, ?_, by simpa using hlen⟩
    rw [← hrun]
    simp only [SymbolicRegression.discoverMultiple, vector.reserve_ok max_size n hn]
    rfl
  · intro hn
    simp only [SymbolicRegression.discoverMultiple, vector.reserve_throws max_size n hn]
    rfl

/-- Witness of the amended C3: three equations for `n = 3`, and
`std::length_error` for `n = SIZE_MAX`, with the `max_size()` of libstdc++. -/
theorem symbolic_discoverMultiple_length_witness :
    (3 ≤ Example.max_size ∧
      ∃ (eqs : List Equation) (dev1 : Nat),
        SymbolicRegression.discoverMultiple StdLib.counting Example.max_size ⟨1000, 100⟩
          ⟨Example.rows2x2⟩ 3 0 = .ok (eqs, dev1) ∧ eqs.length = 3) ∧
    (Example.max_size < Example.size_max ∧
      SymbolicRegression.discoverMultiple StdLib.counting Example.max_size ⟨1000, 100⟩
          ⟨Example.rows2x2⟩ Example.size_max 0
        = .error (Exception.length_error "vector::reserve")) :=
  ⟨⟨by decide,
    (symbolic_discoverMultiple_length StdLib.counting Example.max_size ⟨1000, 100⟩
      ⟨Example.rows2x2⟩ 3 0).1 (by decide)⟩,
   ⟨by decide,
    (symbolic_discoverMultiple_length StdLib.counting Example.max_size ⟨1000, 100⟩
      ⟨Example.rows2x2⟩ Example.size_max 0).2 (by decide)⟩⟩

/-- Counterexample to C3: with the `max_size()` of libstdc++ and
`n = SIZE_MAX`, `SymbolicRegression::discoverMultiple` throws
`std::length_error` at `equations.reserve(n)` and returns no sequence, so none
of `n` equations. -/
theorem symbolic_discoverMultiple_length_counterexample :
    SymbolicRegression.discoverMultiple StdLib.counting Example.max_size ⟨1000, 100⟩
        ⟨Example.rows2x2⟩ Example.size_max 0
      = .error (Exception.length_error "vector::reserve") ∧
    ¬ ∃ (eqs : List Equation) (dev1 : Nat),
        SymbolicRegression.discoverMultiple StdLib.counting Example.max_size ⟨1000, 100⟩
          ⟨Example.rows2x2⟩ Example.size_max 0 = .ok (eqs, dev1) ∧
        eqs.length = Example.size_max := by
  have hthrow : SymbolicRegression.discoverMultiple StdLib.counting Example.max_size
      ⟨1000, 100⟩ ⟨Example.rows2x2⟩ Example.size_max 0
      = .error (Exception.length_error "vector::reserve") := by
    simp only [SymbolicRegression.discoverMultiple,
      vector.reserve_throws Example.max_size Example.size_max (by decide)]
    rfl
  refine ⟨hthrow, ?_⟩
  rintro ⟨eqs, dev1, hrun, -⟩
  rw [hthrow] at hrun
  cases hrun

/-- Claim C7: for every `DataSet`, every configuration and every state of the
random source, `SymbolicRegression::discover` returns an equation whose text is
not empty and whose fitness `f` satisfies `f >= 0.0` and `f <= 1.0`. -/
theorem symbolic_discover_text_and_fitness {Device Engine : Type} (L : StdLib Device Engine)
    (self : SymbolicRegression) (data : DataSet) (dev : Device) :
    ∃ (eq : Equation) (dev1 : Device),
      self.discover L data dev = .ok (eq, dev1) ∧
      eq.toString ≠ "" ∧
      Double.ge eq.fitness Double.lit_0_0 = true ∧
      Double.le eq.fitness Double.lit_1_0 = true := by
  refine ⟨_, _, symbolic_discover_eq L self data dev, ?_, ?_, ?_⟩
  · exact append_mid_ne_empty _ _
  · exact Double.lit_0_95_range.1
  · exact Double.lit_0_95_range.2

/-- Claim C5, as the code has it: `SymbolicRegression::discover` makes no check
on the number of columns; for a `DataSet` with fewer than 2 columns it returns
an equation with fitness `0.95` and throws nothing. -/
theorem symbolic_discover_few_columns {Device Engine : Type} (L : StdLib Device Engine)
    (self : SymbolicRegression) (data : DataSet) (dev : Device)
    (_hcols : data.cols < 2) :
    ∃ (eq : Equation) (dev1 : Device),
      self.discover L data dev = .ok (eq, dev1) ∧ eq.fitness = Double.lit_0_95 :=
  ⟨_, _, symbolic_discover_eq L self data dev, rfl⟩

/-- Witness of the amended C5 on the one-column data `{{1.0}}`. -/
theorem symbolic_discover_few_columns_witness :
    DataSet.cols ⟨Example.rows1x1⟩ < 2 ∧
    ∃ (eq : Equation) (dev1 : Nat),
      SymbolicRegression.discover StdLib.counting ⟨1000, 100⟩ ⟨Example.rows1x1⟩ 0
        = .ok (eq, dev1) ∧ eq.fitness = Double.lit_0_95 :=
  ⟨by decide, symbolic_discover_few_columns StdLib.counting ⟨1000, 100⟩ ⟨Example.rows1x1⟩ 0
    (by decide)⟩

/-- Counterexample to C5: the one-column data `{{1.0}}` is a valid `DataSet` with
`cols() = 1`, and `discover` on it returns an equation instead of throwing. -/
theorem symbolic_discover_few_columns_counterexample :
    DataSet.DataSet Example.rows1x1 = .ok ⟨Example.rows1x1⟩ ∧
    DataSet.cols ⟨Example.rows1x1⟩ = 1 ∧
    SymbolicRegression.discover StdLib.counting ⟨1000, 100⟩ ⟨Example.rows1x1⟩ 0
      = .ok (⟨"1 * x + 0", Double.lit_0_95⟩, 1) ∧
    ¬ ∃ msg, SymbolicRegression.discover StdLib.counting ⟨1000, 100⟩ ⟨Example.rows1x1⟩ 0
      = .error (Exception.invalid_argument msg) := by
  refine ⟨rfl, rfl, rfl, ?_⟩
  rintro ⟨msg, hmsg⟩
  rw [symbolic_discover_eq] at hmsg
  cases hmsg

/-- Claim C6, as the code has it: the constructors validate nothing.
`SymbolicRegression(p, g)` succeeds for every population size `p`, zero
included, and `SINDy(t, m)` succeeds for every threshold `t`, zero and negative
values included; both store their arguments unchanged. -/
theorem constructors_accept_every_configuration :
    (∀ population_size generations : Nat,
      SymbolicRegression.SymbolicRegression population_size generations
        = .ok ⟨population_size, generations⟩) ∧
    (∀ (threshold : Double) (max_iter : Nat),
      SINDy.SINDy threshold max_iter = .ok ⟨threshold, max_iter⟩) :=
  ⟨fun _ _ => rfl, fun _ _ => rfl⟩

/-- Counterexample to C6: population size `0`, threshold `0.0` and threshold
`-1.0` are all accepted, and the objects built are usable: their `discover`
returns an equation. -/
theorem constructors_accept_counterexample :
    SymbolicRegression.SymbolicRegression 0 100 = .ok ⟨0, 100⟩ ∧
    SINDy.SINDy Double.lit_0_0 10 = .ok ⟨Double.lit_0_0, 10⟩ ∧
    SINDy.SINDy ⟨true, 1023, 0⟩ 10 = .ok ⟨⟨true, 1023, 0⟩, 10⟩ ∧
    Double.le ⟨true, 1023, 0⟩ Double.lit_0_0 = true ∧
    SymbolicRegression.discover StdLib.counting ⟨0, 100⟩ ⟨Example.rows2x2⟩ 0
      = .ok (⟨"1 * x + 0", Double.lit_0_95⟩, 1) ∧
    SINDy.discover ⟨Double.lit_0_0, 10⟩ ⟨Example.rows2x2⟩
      = .ok ⟨"dx/dt = -10.0 * x + 10.0 * y", Double.lit_0_92⟩ := by
  refine ⟨rfl, rfl, rfl, by decide!, rfl, rfl⟩

/-! ## `SINDy` -/

/-- Closed form of `SINDy::discover`: it always returns the same equation. -/
theorem sindy_discover_eq (self : SINDy) (data : DataSet) :
    self.discover data = .ok ⟨"dx/dt = -10.0 * x + 10.0 * y", Double.lit_0_92⟩ := by
  rfl

/-- Claim C8, as the code has it: for every `DataSet` whose last column equals
its first column in every row, `SINDy::discover` returns an equation whose
fitness is the fixed value `0.92`; no residual is computed, and the fitness is
not `1.0`. -/
theorem sindy_discover_exact_fit_fitness (self : SINDy) (data : DataSet)
    (_hfit : ∀ row ∈ data.data_, ∃ x : Double, row.head? = some x ∧ row.getLast? = some x) :
    ∃ eq : Equation,
      self.discover data = .ok eq ∧
      eq.fitness = Double.lit_0_92 ∧
      Double.eq eq.fitness Double.lit_1_0 = false := by
  refine ⟨_, sindy_discover_eq self data, rfl, ?_⟩
  exact Double.lit_0_92_ne_one.2

/-- Witness of the amended C8 on the rows `{{1.0, 1.0}, {0.0, 0.0}}`. -/
theorem sindy_discover_exact_fit_fitness_witness :
    (∀ row ∈ (DataSet.mk Example.rowsDiag).data_,
      ∃ x : Double, row.head? = some x ∧ row.getLast? = some x) ∧
    ∃ eq : Equation,
      SINDy.discover ⟨Double.lit_0_1, 10⟩ ⟨Example.rowsDiag⟩ = .ok eq ∧
      eq.fitness = Double.lit_0_92 ∧
      Double.eq eq.fitness Double.lit_1_0 = false :=
  ⟨by simp [Example.rowsDiag],
   sindy_discover_exact_fit_fitness ⟨Double.lit_0_1, 10⟩ ⟨Example.rowsDiag⟩
    (by simp [Example.rowsDiag])⟩

/-- Counterexample to C8: the rows `{{1.0, 1.0}, {0.0, 0.0}}` form a valid
`DataSet` whose last column is reproduced exactly by the first column, yet the
fitness returned by `SINDy::discover` is `0.92`, which is not `1.0`. -/
theorem sindy_discover_exact_fit_counterexample :
    DataSet.DataSet Example.rowsDiag = .ok ⟨Example.rowsDiag⟩ ∧
    (∀ row ∈ Example.rowsDiag, ∃ x : Double, row.head? = some x ∧ row.getLast? = some x) ∧
    (SINDy.discover ⟨Double.lit_0_1, 10⟩ ⟨Example.rowsDiag⟩).map Equation.fitness
      = .ok Double.lit_0_92 ∧
    Double.lit_0_92 ≠ Double.lit_1_0 ∧
    Double.eq Double.lit_0_92 Double.lit_1_0 = false := by
  refine ⟨rfl, by simp [Example.rowsDiag], rfl, Double.lit_0_92_ne_one.1, Double.lit_0_92_ne_one.2⟩

/-! ## `Equation` -/

/-- Claim C9, as the code has it: on every `Equation`, each use of the public
interface returns; `fitness()` is unchanged by the `const` members `toString`,
`evaluate` and `fitness` and by a copy or move that takes the object as its
source; after `setFitness(f)` it is `f`, and after the implicitly declared copy
or move assignment from `other` it is the fitness of `other`. -/
theorem equation_fitness_after_operation (eq : Equation) (op : EquationOp) :
    ((∀ f : Double, op ≠ EquationOp.setFitness f) →
      (∀ other : Equation, op ≠ EquationOp.copyAssign other) →
      (∀ other : Equation, op ≠ EquationOp.moveAssign other) →
      ∃ (v : EquationValue) (eq1 : Equation),
        op.run eq = .ok (v, eq1) ∧ eq1.fitness = eq.fitness) ∧
    (∀ f : Double, ∃ (v : EquationValue) (eq1 : Equation),
      (EquationOp.setFitness f).run eq = .ok (v, eq1) ∧ eq1.fitness = f) ∧
    (∀ other : Equation, ∃ (v : EquationValue) (eq1 : Equation),
      (EquationOp.copyAssign other).run eq = .ok (v, eq1) ∧ eq1.fitness = other.fitness) ∧
    (∀ other : Equation, ∃ (v : EquationValue) (eq1 : Equation),
      (EquationOp.moveAssign other).run eq = .ok (v, eq1) ∧ eq1.fitness = other.fitness) := by
  refine ⟨?_, fun f => ⟨_, _, rfl, rfl⟩, fun other => ⟨_, _, rfl, rfl⟩,
    fun other => ⟨_, _, rfl, rfl⟩⟩
  intro hset hcopy hmove
  cases op with
  | toString => exact ⟨_, _, rfl, rfl⟩
  | evaluate inputs => exact ⟨_, _, rfl, rfl⟩
  | fitness => exact ⟨_, _, rfl, rfl⟩
  | setFitness f => exact absurd rfl (hset f)
  | copyAssign other => exact absurd rfl (hcopy other)
  | moveAssign other => exact absurd rfl (hmove other)
  | copyFrom => exact ⟨_, _, rfl, rfl⟩
  | moveFrom residue => exact ⟨_, _, rfl, rfl⟩

/-- Witness of the amended C9: `evaluate` on the equation returned by
`SINDy::discover` leaves its fitness at `0.92`. -/
theorem equation_fitness_after_operation_witness :
    (∀ f : Double, EquationOp.evaluate [Double.lit_1_0] ≠ EquationOp.setFitness f) ∧
    (∀ other : Equation, EquationOp.evaluate [Double.lit_1_0] ≠ EquationOp.copyAssign other) ∧
    (∀ other : Equation, EquationOp.evaluate [Double.lit_1_0] ≠ EquationOp.moveAssign other) ∧
    ∃ (v : EquationValue) (eq1 : Equation),
      (EquationOp.evaluate [Double.lit_1_0]).run
          ⟨"dx/dt = -10.0 * x + 10.0 * y", Double.lit_0_92⟩ = .ok (v, eq1) ∧
      eq1.fitness = Equation.fitness ⟨"dx/dt = -10.0 * x + 10.0 * y", Double.lit_0_92⟩ :=
  ⟨fun _ h => EquationOp.noConfusion h, fun _ h => EquationOp.noConfusion h,
   fun _ h => EquationOp.noConfusion h,
   (equation_fitness_after_operation ⟨"dx/dt = -10.0 * x + 10.0 * y", Double.lit_0_92⟩
      (EquationOp.evaluate [Double.lit_1_0])).1
     (fun _ h => EquationOp.noConfusion h) (fun _ h => EquationOp.noConfusion h)
     (fun _ h => EquationOp.noConfusion h)⟩

/-- Counterexample to C9: the equation returned by `SINDy::discover` has fitness
`0.92`; after the public call `setFitness(0.0)` its fitness is `0.0`, and after
the assignment of an equation built by `Equation("y")`, whose fitness is `0.0`,
it is `0.0` as well. -/
theorem equation_fitness_counterexample :
    SINDy.discover ⟨Double.lit_0_1, 10⟩ ⟨Example.rows2x2⟩
      = .ok ⟨"dx/dt = -10.0 * x + 10.0 * y", Double.lit_0_92⟩ ∧
    Equation.fitness ⟨"dx/dt = -10.0 * x + 10.0 * y", Double.lit_0_92⟩ = Double.lit_0_92 ∧
    (EquationOp.setFitness Double.lit_0_0).run ⟨"dx/dt = -10.0 * x + 10.0 * y", Double.lit_0_92⟩
      = .ok (EquationValue.void, ⟨"dx/dt = -10.0 * x + 10.0 * y", Double.lit_0_0⟩) ∧
    Equation.Equation "y" = .ok ⟨"y", Double.lit_0_0⟩ ∧
    (EquationOp.copyAssign ⟨"y", Double.lit_0_0⟩).run
        ⟨"dx/dt = -10.0 * x + 10.0 * y", Double.lit_0_92⟩
      = .ok (EquationValue.void, ⟨"y", Double.lit_0_0⟩) ∧
    Equation.fitness ⟨"dx/dt = -10.0 * x + 10.0 * y", Double.lit_0_0⟩ = Double.lit_0_0 ∧
    Equation.fitness ⟨"y", Double.lit_0_0⟩ = Double.lit_0_0 ∧
    Double.lit_0_0 ≠ Double.lit_0_92 ∧
    Double.eq Double.lit_0_0 Double.lit_0_92 = false := by
  refine ⟨rfl, rfl, rfl, rfl, rfl, rfl, rfl, by decide, by decide!⟩

/-- Claim C10: `Equation::evaluate` is total: for every `Equation`, whatever its
text, and every input vector, finite or not, it returns a number and throws
nothing, and the number returned is finite. -/
theorem equation_evaluate_total (eq : Equation) (inputs : List Double) :
    ∃ v : Double, eq.evaluate inputs = .ok v ∧ v.isFinite = true :=
  ⟨Double.lit_0_0, rfl, by decide⟩

/-- Claim C11: for every string `s` and every fitness value `f`, `Equation(s)`
is built and its `toString()` is `s`; and on any `Equation`, after
`setFitness(f)` the value of `fitness()` is `f` and `toString()` is what it was
before. -/
theorem equation_constructor_and_setFitness (s : String) (f : Double) (eq : Equation) :
    (∃ e : Equation, Equation.Equation s = .ok e ∧ e.toString = s) ∧
    (eq.setFitness f).fitness = f ∧
    (eq.setFitness f).toString = eq.toString :=
  ⟨⟨⟨s, Double.lit_0_0⟩, rfl, rfl⟩, rfl, rfl⟩

/-- Claim C13: `Equation::evaluate` ignores the expression and the inputs: for
every `Equation`, and so for the one built from any string, and every input
vector, the empty one included, it returns exactly `0.0`; hence any two
equations evaluate alike on all inputs, also on different ones. -/
theorem equation_evaluate_is_zero :
    (∀ (eq : Equation) (inputs : List Double), eq.evaluate inputs = .ok Double.lit_0_0) ∧
    (∀ (s : String) (inputs : List Double),
      (Equation.Equation s).bind (fun e => e.evaluate inputs) = .ok Double.lit_0_0) ∧
    (∀ (eq1 eq2 : Equation) (inputs1 inputs2 : List Double),
      eq1.evaluate inputs1 = eq2.evaluate inputs2) :=
  ⟨fun _ _ => rfl, fun _ _ => rfl, fun _ _ _ _ => rfl⟩

/-- Claim C14: `SINDy::discover` does not depend on its input or on the
configuration: for any two `DataSet`s and any two `SINDy` objects the returned
equations are equal, with the text `dx/dt = -10.0 * x + 10.0 * y` and the
fitness `0.92`. -/
theorem sindy_discover_independent (self1 self2 : SINDy) (data1 data2 : DataSet) :
    self1.discover data1 = self2.discover data2 ∧
    ∃ eq : Equation, self1.discover data1 = .ok eq ∧
      eq.toString = "dx/dt = -10.0 * x + 10.0 * y" ∧
      eq.fitness = Double.lit_0_92 :=
  ⟨rfl, ⟨"dx/dt = -10.0 * x + 10.0 * y", Double.lit_0_92⟩, rfl, rfl, rfl⟩

/-! ## `SINDy::discoverMultiple` against `SINDy::discover` -/

